import Mathlib

/-!
Verification of the gesture classification and stabilization pipeline of the
GesturePro repository: a shallow embedding of the keypoint classifier
(services/gestureRecognition, function detectGesture) and of the temporal
stabilizer inside components/HandTracker.tsx (function processResults),
together with theorems settling the specified properties.

Coordinates are modelled as rationals. The source compares Euclidean planar
distances against positive constant thresholds; the embedding compares the
squared distance against the squared threshold, which is equivalent since
for t > 0 we have sqrt s < t iff s < t * t, and keeps every test decidable.
-/

namespace GesturePro

/-- A 3D hand landmark in normalized image coordinates, as in the source
interface Landmark with fields x, y, z. -/
structure Landmark where
  x : ℚ
  y : ℚ
  z : ℚ
deriving DecidableEq

instance : Inhabited Landmark := ⟨⟨0, 0, 0⟩⟩

/-- The closed gesture enumeration GestureType of types.ts. -/
inductive GestureType where
  | NONE
  | PUNCH
  | OPEN
  | PINCH
  | TWO_FINGERS
  | THREE_FINGERS
deriving DecidableEq, Repr

instance : Inhabited GestureType := ⟨GestureType.NONE⟩

/-- Squared planar distance between two landmarks; the source getDistance
returns the square root of this quantity. -/
def distSq (a b : Landmark) : ℚ :=
  (a.x - b.x) ^ 2 + (a.y - b.y) ^ 2

/-- Embedding of the comparison getDistance a b < t for a positive
threshold t: equivalent to distSq a b < t ^ 2. -/
def distLt (a b : Landmark) (t : ℚ) : Bool :=
  distSq a b < t ^ 2

/-- The source helper isExtended: tip.y < mcp.y - 0.02. -/
def isExtended (tip mcp : Landmark) : Bool :=
  tip.y < mcp.y - 0.02

/-! The local bindings of detectGesture (thumbTip = landmarks[4],
indexTip = landmarks[8], middleTip = landmarks[12], ringTip =
landmarks[16], pinkyTip = landmarks[20], indexMcp = landmarks[5],
middleMcp = landmarks[9], ringMcp = landmarks[13], pinkyMcp =
landmarks[17], palmCenter = landmarks[9]) and its branch conditions are
named top-level definitions here; each is the literal source expression
with List.getD standing in for array indexing. The guard in
detectGesture ensures every accessed index is in bounds whenever a
branch condition is evaluated. -/

/-- indexOpen = isExtended(indexTip, indexMcp). -/
def indexOpen (landmarks : List Landmark) : Bool :=
  isExtended (landmarks.getD 8 default) (landmarks.getD 5 default)

/-- middleOpen = isExtended(middleTip, middleMcp). -/
def middleOpen (landmarks : List Landmark) : Bool :=
  isExtended (landmarks.getD 12 default) (landmarks.getD 9 default)

/-- ringOpen = isExtended(ringTip, ringMcp). -/
def ringOpen (landmarks : List Landmark) : Bool :=
  isExtended (landmarks.getD 16 default) (landmarks.getD 13 default)

/-- pinkyOpen = isExtended(pinkyTip, pinkyMcp). -/
def pinkyOpen (landmarks : List Landmark) : Bool :=
  isExtended (landmarks.getD 20 default) (landmarks.getD 17 default)

/-- The source test pinchDist < 0.045 with
pinchDist = getDistance(thumbTip, indexTip). -/
def pinchDistLt (landmarks : List Landmark) : Bool :=
  distLt (landmarks.getD 4 default) (landmarks.getD 8 default) 0.045

/-- The full PINCH branch condition of detectGesture. -/
def pinchCond (landmarks : List Landmark) : Bool :=
  pinchDistLt landmarks && !middleOpen landmarks && !ringOpen landmarks

/-- The THREE_FINGERS branch condition of detectGesture. -/
def threeFingersCond (landmarks : List Landmark) : Bool :=
  indexOpen landmarks && middleOpen landmarks && ringOpen landmarks &&
    !pinkyOpen landmarks

/-- The TWO_FINGERS branch condition of detectGesture. -/
def twoFingersCond (landmarks : List Landmark) : Bool :=
  indexOpen landmarks && middleOpen landmarks && !ringOpen landmarks &&
    !pinkyOpen landmarks

/-- The PUNCH branch condition of detectGesture: every tip of
tips = [indexTip, middleTip, ringTip, pinkyTip] satisfies
getDistance(tip, palmCenter) < 0.12, with palmCenter = landmarks[9]. -/
def allClosed (landmarks : List Landmark) : Bool :=
  [landmarks.getD 8 default, landmarks.getD 12 default,
   landmarks.getD 16 default, landmarks.getD 20 default].all
    fun tip => distLt tip (landmarks.getD 9 default) 0.12

/-- extendedCount: the number of true flags among the four finger
extension flags, as the source filter over the flag array. -/
def extendedCount (landmarks : List Landmark) : Nat :=
  (List.filter id
    [indexOpen landmarks, middleOpen landmarks, ringOpen landmarks,
     pinkyOpen landmarks]).length

/-- Shallow embedding of detectGesture (services/gestureRecognition).
Returns NONE when fewer than 21 landmarks are provided; otherwise checks
PINCH, THREE_FINGERS, TWO_FINGERS, PUNCH, OPEN in source order. -/
def detectGesture (landmarks : List Landmark) : GestureType :=
  if landmarks.length < 21 then GestureType.NONE
  -- 1. PINCH (thumb + index close, middle and ring closed)
  else if pinchCond landmarks then GestureType.PINCH
  -- 2. THREE FINGERS (index, middle, ring open, pinky closed)
  else if threeFingersCond landmarks then GestureType.THREE_FINGERS
  -- 3. TWO FINGERS (index, middle open, ring and pinky closed)
  else if twoFingersCond landmarks then GestureType.TWO_FINGERS
  -- 4. PUNCH (all fingers curled towards palm center)
  else if allClosed landmarks then GestureType.PUNCH
  -- 5. OPEN (at least 4 fingers extended)
  else if extendedCount landmarks ≥ 4 then GestureType.OPEN
  else GestureType.NONE

/-- detectGesture lifted to an optional landmark set: the source guard
`!landmarks` maps an absent set to NONE. -/
def detectGestureOpt (landmarks : Option (List Landmark)) : GestureType :=
  match landmarks with
  | none => GestureType.NONE
  | some l => detectGesture l

/-! Temporal stabilizer (processResults in components/HandTracker.tsx) -/

/-- The fixed buffer capacity BUFFER_SIZE of HandTracker. -/
def BUFFER_SIZE : Nat := 3

/-- One stabilizer update step on the buffer: push the raw gesture, then
shift out the oldest element when the length exceeds BUFFER_SIZE
(lines 61 to 64 of HandTracker.tsx). -/
def pushGesture (buf : List GestureType) (g : GestureType) : List GestureType :=
  let b := buf ++ [g]
  if BUFFER_SIZE < b.length then b.tail else b

/-- Occurrence count of a label in the buffer, the value stored for that
label by the frequency-counting reduce over the buffer. -/
def countOcc (buf : List GestureType) (g : GestureType) : Nat :=
  buf.count g

/-- The distinct labels of the buffer in insertion order of first
occurrence: the key order of the record built by the reduce on
lines 66 to 69, since JavaScript objects enumerate non-numeric string
keys in insertion order. -/
def distinctInOrder (buf : List GestureType) : List GestureType :=
  buf.foldl (fun acc g => if g ∈ acc then acc else acc ++ [g]) []

/-- Keep the earlier entry unless the later one has a strictly larger
count: one comparison step of the stable descending sort on line 73. -/
def pickMax (buf : List GestureType) (best g : GestureType) : GestureType :=
  if countOcc buf best < countOcc buf g then g else best

/-- The stable gesture extracted from the buffer: sortedEntries[0][0] on
line 74. Array.prototype.sort is stable, so sorting the insertion-ordered
entries by descending count and taking the first entry yields the first
label, in first-occurrence order, whose count no later label strictly
exceeds; the left fold with pickMax computes exactly that label.
An empty buffer never occurs after a push; NONE is the placeholder. -/
def mostFrequent (buf : List GestureType) : GestureType :=
  match distinctInOrder buf with
  | [] => GestureType.NONE
  | e :: es => es.foldl (pickMax buf) e

/-- The state of the HandTracker component relevant to gesture output:
the ref cell gestureBuffer. -/
structure TrackerState where
  gestureBuffer : List GestureType
deriving DecidableEq

/-- One frame delivered by the tracking subsystem: either no detected
hand (results.multiHandLandmarks empty or absent) or the first detected
hand as a landmark list. -/
inductive FrameInput where
  | noHand
  | hand (landmarks : List Landmark)

/-- The pair passed to onGestureDetected: a gesture label and an
anchor position. -/
structure Output where
  gesture : GestureType
  pos : ℚ × ℚ
deriving DecidableEq

/-- Shallow embedding of the gesture-relevant effect of processResults
(HandTracker.tsx, lines 42 to 79): on a hand frame, classify, read the
anchor from landmark 9, push the raw gesture into the buffer with
eviction, and emit the majority label with the anchor; on a no-hand
frame, emit NONE at (0.5, 0.5) without touching the buffer. Canvas
drawing has no effect on the emitted data and is not modelled. -/
def processResults (st : TrackerState) (fr : FrameInput) : TrackerState × Output :=
  match fr with
  | FrameInput.noHand =>
      (st, ⟨GestureType.NONE, (0.5, 0.5)⟩)
  | FrameInput.hand landmarks =>
      let rawGesture := detectGesture landmarks
      let x := (landmarks.getD 9 default).x
      let y := (landmarks.getD 9 default).y
      let buf := pushGesture st.gestureBuffer rawGesture
      let stableGesture := mostFrequent buf
      (⟨buf⟩, ⟨stableGesture, (x, y)⟩)

/-- Feeding a sequence of raw labels through successive stabilizer
updates, returning the final buffer. -/
def feedAll (buf : List GestureType) (gs : List GestureType) : List GestureType :=
  gs.foldl pushGesture buf

/-- The stable label returned by the last update after feeding a
sequence of raw labels into a fresh stabilizer. -/
def stableAfter (gs : List GestureType) : GestureType :=
  mostFrequent (feedAll [] gs)

/-! Concrete landmark sets used as witnesses and counterexamples. -/

/-- A filler landmark for indices the classifier does not read. -/
def lmZero : Landmark := ⟨0, 0, 0⟩

/-- A knuckle reference point at the image center. -/
def lmMcp : Landmark := ⟨0.5, 0.5, 0⟩

/-- A fingertip slightly above its knuckle: extended, yet within the
fist distance of the palm center. -/
def lmNearTip : Landmark := ⟨0.5, 0.45, 0⟩

/-- A fingertip slightly below its knuckle: curled, within the fist
distance of the palm center. -/
def lmCurlTip : Landmark := ⟨0.5, 0.55, 0⟩

/-- A fingertip far above its knuckle: extended and far from the palm
center. -/
def lmFarTip : Landmark := ⟨0.5, 0.3, 0⟩

/-- A thumb tip far away from every fingertip. -/
def lmThumbFar : Landmark := ⟨0.9, 0.9, 0⟩

/-- 21 landmarks where index, middle, ring, pinky are all extended while
every fingertip also lies within 0.12 of the palm center. -/
def poseOpenNear : List Landmark :=
  [lmZero, lmZero, lmZero, lmZero, lmThumbFar, lmMcp, lmZero, lmZero, lmNearTip,
   lmMcp, lmZero, lmZero, lmNearTip, lmMcp, lmZero, lmZero, lmNearTip, lmMcp,
   lmZero, lmZero, lmNearTip]

/-- 21 landmarks where index, middle, ring are extended, pinky is curled,
and every fingertip lies within 0.12 of the palm center. -/
def poseThreeNear : List Landmark :=
  [lmZero, lmZero, lmZero, lmZero, lmThumbFar, lmMcp, lmZero, lmZero, lmNearTip,
   lmMcp, lmZero, lmZero, lmNearTip, lmMcp, lmZero, lmZero, lmNearTip, lmMcp,
   lmZero, lmZero, lmCurlTip]

/-- 21 landmarks of a fist: no finger extended, all fingertips within
0.12 of the palm center, thumb far from the index tip. -/
def poseFist : List Landmark :=
  [lmZero, lmZero, lmZero, lmZero, lmThumbFar, lmMcp, lmZero, lmZero, lmCurlTip,
   lmMcp, lmZero, lmZero, lmCurlTip, lmMcp, lmZero, lmZero, lmCurlTip, lmMcp,
   lmZero, lmZero, lmCurlTip]

/-- 21 landmarks of a pinch that also satisfies the fist distances:
thumb tip on the index tip, no finger extended. -/
def posePinch : List Landmark :=
  [lmZero, lmZero, lmZero, lmZero, lmCurlTip, lmMcp, lmZero, lmZero, lmCurlTip,
   lmMcp, lmZero, lmZero, lmCurlTip, lmMcp, lmZero, lmZero, lmCurlTip, lmMcp,
   lmZero, lmZero, lmCurlTip]

/-- 21 landmarks of an open hand: all four fingers extended, fingertips
far from the palm center. -/
def poseOpen : List Landmark :=
  [lmZero, lmZero, lmZero, lmZero, lmThumbFar, lmMcp, lmZero, lmZero, lmFarTip,
   lmMcp, lmZero, lmZero, lmFarTip, lmMcp, lmZero, lmZero, lmFarTip, lmMcp,
   lmZero, lmZero, lmFarTip]

/-! Concrete threshold comparisons for the named landmarks. Rational
arithmetic does not reduce inside the kernel, so these are settled by
norm_num once and reused as terms below. -/

theorem isExtended_near : isExtended lmNearTip lmMcp = true := by
  norm_num [isExtended, lmNearTip, lmMcp]

theorem isExtended_curl : isExtended lmCurlTip lmMcp = false := by
  norm_num [isExtended, lmCurlTip, lmMcp]

theorem isExtended_far : isExtended lmFarTip lmMcp = true := by
  norm_num [isExtended, lmFarTip, lmMcp]

theorem distLt_near_mcp : distLt lmNearTip lmMcp 0.12 = true := by
  norm_num [distLt, distSq, lmNearTip, lmMcp]

theorem distLt_curl_mcp : distLt lmCurlTip lmMcp 0.12 = true := by
  norm_num [distLt, distSq, lmCurlTip, lmMcp]

theorem distLt_far_mcp : distLt lmFarTip lmMcp 0.12 = false := by
  norm_num [distLt, distSq, lmFarTip, lmMcp]

theorem distLt_curl_curl : distLt lmCurlTip lmCurlTip 0.045 = true := by
  norm_num [distLt, distSq]

theorem distLt_thumbFar_near : distLt lmThumbFar lmNearTip 0.045 = false := by
  norm_num [distLt, distSq, lmThumbFar, lmNearTip]

theorem distLt_thumbFar_curl : distLt lmThumbFar lmCurlTip 0.045 = false := by
  norm_num [distLt, distSq, lmThumbFar, lmCurlTip]

theorem distLt_thumbFar_far : distLt lmThumbFar lmFarTip 0.045 = false := by
  norm_num [distLt, distSq, lmThumbFar, lmFarTip]

/-! Branch condition values on the concrete poses. Each statement is
stated at its definitionally reduced form first, so that list indexing
into the concrete pose unfolds without rational arithmetic. -/

theorem pinchCond_poseOpenNear : pinchCond poseOpenNear = false := by
  show (distLt lmThumbFar lmNearTip 0.045 && !isExtended lmNearTip lmMcp &&
    !isExtended lmNearTip lmMcp) = false
  rw [distLt_thumbFar_near]
  rfl

theorem allClosed_poseOpenNear : allClosed poseOpenNear = true := by
  show ([lmNearTip, lmNearTip, lmNearTip, lmNearTip].all
    fun tip => distLt tip lmMcp 0.12) = true
  simp [distLt_near_mcp]

theorem threeFingersCond_poseOpenNear :
    threeFingersCond poseOpenNear = false := by
  show (isExtended lmNearTip lmMcp && isExtended lmNearTip lmMcp &&
    isExtended lmNearTip lmMcp && !isExtended lmNearTip lmMcp) = false
  rw [isExtended_near]
  rfl

theorem twoFingersCond_poseOpenNear : twoFingersCond poseOpenNear = false := by
  show (isExtended lmNearTip lmMcp && isExtended lmNearTip lmMcp &&
    !isExtended lmNearTip lmMcp && !isExtended lmNearTip lmMcp) = false
  rw [isExtended_near]
  rfl

theorem pinchCond_poseThreeNear : pinchCond poseThreeNear = false := by
  show (distLt lmThumbFar lmNearTip 0.045 && !isExtended lmNearTip lmMcp &&
    !isExtended lmNearTip lmMcp) = false
  rw [distLt_thumbFar_near]
  rfl

theorem allClosed_poseThreeNear : allClosed poseThreeNear = true := by
  show ([lmNearTip, lmNearTip, lmNearTip, lmCurlTip].all
    fun tip => distLt tip lmMcp 0.12) = true
  simp [distLt_near_mcp, distLt_curl_mcp]

theorem threeFingersCond_poseThreeNear :
    threeFingersCond poseThreeNear = true := by
  show (isExtended lmNearTip lmMcp && isExtended lmNearTip lmMcp &&
    isExtended lmNearTip lmMcp && !isExtended lmCurlTip lmMcp) = true
  rw [isExtended_near, isExtended_curl]
  rfl

theorem pinchCond_poseFist : pinchCond poseFist = false := by
  show (distLt lmThumbFar lmCurlTip 0.045 && !isExtended lmCurlTip lmMcp &&
    !isExtended lmCurlTip lmMcp) = false
  rw [distLt_thumbFar_curl]
  rfl

theorem allClosed_poseFist : allClosed poseFist = true := by
  show ([lmCurlTip, lmCurlTip, lmCurlTip, lmCurlTip].all
    fun tip => distLt tip lmMcp 0.12) = true
  simp [distLt_curl_mcp]

theorem threeFingersCond_poseFist : threeFingersCond poseFist = false := by
  show (isExtended lmCurlTip lmMcp && isExtended lmCurlTip lmMcp &&
    isExtended lmCurlTip lmMcp && !isExtended lmCurlTip lmMcp) = false
  rw [isExtended_curl]
  rfl

theorem twoFingersCond_poseFist : twoFingersCond poseFist = false := by
  show (isExtended lmCurlTip lmMcp && isExtended lmCurlTip lmMcp &&
    !isExtended lmCurlTip lmMcp && !isExtended lmCurlTip lmMcp) = false
  rw [isExtended_curl]
  rfl

theorem allClosed_poseOpen : allClosed poseOpen = false := by
  show ([lmFarTip, lmFarTip, lmFarTip, lmFarTip].all
    fun tip => distLt tip lmMcp 0.12) = false
  simp [distLt_far_mcp]

/-! Lemmas about the majority vote. -/

theorem pickMax_cases (buf : List GestureType) (b g : GestureType) :
    pickMax buf b g = b ∨ pickMax buf b g = g := by
  unfold pickMax
  split
  · exact Or.inr rfl
  · exact Or.inl rfl

theorem le_pickMax_left (buf : List GestureType) (b g : GestureType) :
    countOcc buf b ≤ countOcc buf (pickMax buf b g) := by
  unfold pickMax
  split
  · omega
  · exact le_refl _

theorem le_pickMax_right (buf : List GestureType) (b g : GestureType) :
    countOcc buf g ≤ countOcc buf (pickMax buf b g) := by
  unfold pickMax
  split
  · exact le_refl _
  · omega

theorem foldl_pickMax_mem (buf : List GestureType) :
    ∀ (l : List GestureType) (b : GestureType), l.foldl (pickMax buf) b ∈ b :: l := by
  intro l
  induction l with
  | nil => intro b; simp
  | cons g l ih =>
      intro b
      have h := ih (pickMax buf b g)
      rw [List.foldl_cons]
      rcases pickMax_cases buf b g with h1 | h1 <;> rw [h1] at h ⊢ <;>
        simp only [List.mem_cons] at h ⊢ <;> tauto

theorem le_foldl_pickMax (buf : List GestureType) :
    ∀ (l : List GestureType) (b g : GestureType), g ∈ b :: l →
      countOcc buf g ≤ countOcc buf (l.foldl (pickMax buf) b) := by
  intro l
  induction l with
  | nil =>
      intro b g hg
      simp only [List.mem_cons, List.not_mem_nil, or_false] at hg
      subst hg
      simp
  | cons x l ih =>
      intro b g hg
      rw [List.foldl_cons]
      simp only [List.mem_cons] at hg
      rcases hg with hg | hg | hg
      · subst hg
        exact le_trans (le_pickMax_left buf g x) (ih _ _ (List.mem_cons_self _ _))
      · subst hg
        exact le_trans (le_pickMax_right buf b g) (ih _ _ (List.mem_cons_self _ _))
      · exact ih _ _ (List.mem_cons_of_mem _ hg)

theorem foldl_pickMax_stable (buf : List GestureType) :
    ∀ (l : List GestureType) (b : GestureType),
      (∀ g ∈ l, countOcc buf g ≤ countOcc buf b) →
      l.foldl (pickMax buf) b = b := by
  intro l
  induction l with
  | nil => intro b _; rfl
  | cons x l ih =>
      intro b hb
      rw [List.foldl_cons]
      have hx : pickMax buf b x = b := by
        unfold pickMax
        rw [if_neg]
        have := hb x (List.mem_cons_self _ _)
        omega
      rw [hx]
      exact ih b fun g hg => hb g (List.mem_cons_of_mem _ hg)

theorem foldl_pickMax_find (buf : List GestureType) :
    ∀ (pre : List GestureType) (b g : GestureType) (post : List GestureType),
      (∀ x ∈ b :: pre, countOcc buf x < countOcc buf g) →
      (∀ x ∈ post, countOcc buf x ≤ countOcc buf g) →
      (pre ++ g :: post).foldl (pickMax buf) b = g := by
  intro pre
  induction pre with
  | nil =>
      intro b g post hpre hpost
      rw [List.nil_append, List.foldl_cons]
      have hb : pickMax buf b g = g := by
        unfold pickMax
        rw [if_pos]
        exact hpre b (List.mem_cons_self _ _)
      rw [hb]
      exact foldl_pickMax_stable buf post g hpost
  | cons p pre ih =>
      intro b g post hpre hpost
      rw [List.cons_append, List.foldl_cons]
      refine ih (pickMax buf b p) g post ?_ hpost
      intro x hx
      simp only [List.mem_cons] at hx
      rcases hx with hx | hx
      · subst hx
        rcases pickMax_cases buf b p with h1 | h1 <;> rw [h1]
        · exact hpre b (List.mem_cons_self _ _)
        · exact hpre p (List.mem_cons_of_mem _ (List.mem_cons_self _ _))
      · exact hpre x (List.mem_cons_of_mem _ (List.mem_cons_of_mem _ hx))

/-! Lemmas about the insertion-ordered distinct labels. -/

theorem mem_distinct_foldl_of_acc :
    ∀ (l acc : List GestureType) (x : GestureType), x ∈ acc →
      x ∈ l.foldl (fun a g => if g ∈ a then a else a ++ [g]) acc := by
  intro l
  induction l with
  | nil => intro acc x hx; exact hx
  | cons g l ih =>
      intro acc x hx
      rw [List.foldl_cons]
      refine ih _ x ?_
      by_cases hg : g ∈ acc
      · rw [if_pos hg]; exact hx
      · rw [if_neg hg]; exact List.mem_append_left _ hx

theorem mem_distinct_foldl :
    ∀ (l acc : List GestureType) (x : GestureType),
      x ∈ l.foldl (fun a g => if g ∈ a then a else a ++ [g]) acc →
      x ∈ acc ∨ x ∈ l := by
  intro l
  induction l with
  | nil => intro acc x hx; exact Or.inl hx
  | cons g l ih =>
      intro acc x hx
      rw [List.foldl_cons] at hx
      rcases ih _ x hx with h | h
      · by_cases hg : g ∈ acc
        · rw [if_pos hg] at h; exact Or.inl h
        · rw [if_neg hg] at h
          rcases List.mem_append.mp h with h | h
          · exact Or.inl h
          · simp only [List.mem_singleton] at h
            subst h
            exact Or.inr (List.mem_cons_self _ _)
      · exact Or.inr (List.mem_cons_of_mem _ h)

theorem mem_distinct_foldl_of_mem :
    ∀ (l acc : List GestureType) (x : GestureType), x ∈ l →
      x ∈ l.foldl (fun a g => if g ∈ a then a else a ++ [g]) acc := by
  intro l
  induction l with
  | nil => intro acc x hx; exact absurd hx (List.not_mem_nil x)
  | cons g l ih =>
      intro acc x hx
      rw [List.foldl_cons]
      rcases List.mem_cons.mp hx with hx | hx
      · subst hx
        refine mem_distinct_foldl_of_acc _ _ x ?_
        by_cases hg : x ∈ acc
        · rw [if_pos hg]; exact hg
        · rw [if_neg hg]; exact List.mem_append_right _ (List.mem_singleton.mpr rfl)
      · exact ih _ x hx

theorem mem_distinctInOrder (buf : List GestureType) (x : GestureType) :
    x ∈ distinctInOrder buf ↔ x ∈ buf := by
  constructor
  · intro hx
    rcases mem_distinct_foldl buf [] x hx with h | h
    · exact absurd h (List.not_mem_nil x)
    · exact h
  · intro hx
    exact mem_distinct_foldl_of_mem buf [] x hx

theorem distinctInOrder_ne_nil (buf : List GestureType) (h : buf ≠ []) :
    distinctInOrder buf ≠ [] := by
  cases buf with
  | nil => exact absurd rfl h
  | cons b bs =>
      intro hc
      have hb : b ∈ distinctInOrder (b :: bs) :=
        (mem_distinctInOrder _ b).mpr (List.mem_cons_self _ _)
      rw [hc] at hb
      exact List.not_mem_nil b hb

/-! Properties of the stable label extraction. -/

theorem mostFrequent_mem (buf : List GestureType) (h : buf ≠ []) :
    mostFrequent buf ∈ buf := by
  unfold mostFrequent
  have hne := distinctInOrder_ne_nil buf h
  cases hd : distinctInOrder buf with
  | nil => exact absurd hd hne
  | cons e es =>
      have hm := foldl_pickMax_mem buf es e
      rw [← hd] at hm
      exact (mem_distinctInOrder buf _).mp hm

theorem countOcc_le_mostFrequent (buf : List GestureType) (g : GestureType) :
    countOcc buf g ≤ countOcc buf (mostFrequent buf) := by
  unfold mostFrequent
  cases hd : distinctInOrder buf with
  | nil =>
      have hbuf : buf = [] := by
        cases hb : buf with
        | nil => rfl
        | cons b bs =>
            exfalso
            exact distinctInOrder_ne_nil buf (by rw [hb]; exact List.cons_ne_nil b bs) hd
      subst hbuf
      simp [countOcc]
  | cons e es =>
      by_cases hg : g ∈ buf
      · have : g ∈ distinctInOrder buf := (mem_distinctInOrder buf g).mpr hg
        rw [hd] at this
        exact le_foldl_pickMax buf es e g this
      · have : countOcc buf g = 0 := List.count_eq_zero.mpr hg
        rw [this]
        exact Nat.zero_le _

theorem pushGesture_ne_nil (buf : List GestureType) (g : GestureType) :
    pushGesture buf g ≠ [] := by
  unfold pushGesture
  simp only [BUFFER_SIZE]
  split
  · intro hc
    have hlen := congrArg List.length hc
    rw [List.length_tail] at hlen
    simp only [List.length_nil] at hlen
    simp only [List.length_append, List.length_cons, List.length_nil] at *
    omega
  · exact List.append_ne_nil_of_right_ne_nil buf (List.cons_ne_nil g [])

/-! Lemmas about buffer eviction. -/

theorem pushGesture_length (buf : List GestureType) (g : GestureType)
    (h : buf.length ≤ BUFFER_SIZE) :
    (pushGesture buf g).length = min (buf.length + 1) BUFFER_SIZE := by
  unfold pushGesture
  simp only [BUFFER_SIZE] at *
  split <;> rename_i hc <;>
    simp only [List.length_tail, List.length_append, List.length_cons,
      List.length_nil] at hc ⊢ <;> omega

theorem pushGesture_eq_drop (buf : List GestureType) (g : GestureType)
    (h : buf.length ≤ BUFFER_SIZE) :
    pushGesture buf g = (buf ++ [g]).drop ((buf ++ [g]).length - BUFFER_SIZE) := by
  unfold pushGesture
  simp only [BUFFER_SIZE] at *
  split <;> rename_i hc <;>
    simp only [List.length_append, List.length_cons, List.length_nil] at hc ⊢
  · have h3 : buf.length = 3 := by omega
    have : buf.length + 0 + 1 - 3 = 1 := by omega
    rw [this, ← List.drop_one]
  · have : buf.length + 0 + 1 - 3 = 0 := by omega
    rw [this, List.drop_zero]

theorem feedAll_drop_aux (gs : List GestureType) :
    ∀ buf : List GestureType, buf.length ≤ BUFFER_SIZE →
      feedAll buf gs = (buf ++ gs).drop ((buf ++ gs).length - BUFFER_SIZE) := by
  induction gs with
  | nil =>
      intro buf h
      simp only [feedAll, List.foldl_nil, List.append_nil]
      rw [Nat.sub_eq_zero_of_le h, List.drop_zero]
  | cons g gs ih =>
      intro buf h
      have hstep : feedAll buf (g :: gs) = feedAll (pushGesture buf g) gs := rfl
      have hlen : (pushGesture buf g).length ≤ BUFFER_SIZE := by
        rw [pushGesture_length buf g h]
        exact min_le_right _ _
      rw [hstep, ih (pushGesture buf g) hlen, pushGesture_eq_drop buf g h]
      have hk : (buf ++ [g]).length - BUFFER_SIZE ≤ (buf ++ [g]).length :=
        Nat.sub_le _ _
      rw [← List.drop_append_of_le_length hk, List.drop_drop]
      have hassoc : (buf ++ [g]) ++ gs = buf ++ g :: gs := by
        rw [List.append_assoc, List.singleton_append]
      rw [hassoc]
      congr 1
      simp only [List.length_drop, List.length_append, List.length_cons,
        List.length_nil, BUFFER_SIZE] at *
      omega

/-! Claim theorems. -/

/-- C1 (counterexample): with the buffer full of PUNCH, a no-hand frame
makes the component emit NONE at once and leaves the buffer without any
NONE entry, whereas the claimed behavior (appending NONE and majority
voting) would emit PUNCH and store NONE in the buffer. -/
theorem noHand_stabilizer_cex :
    (processResults ⟨[GestureType.PUNCH, GestureType.PUNCH, GestureType.PUNCH]⟩
        FrameInput.noHand).2.gesture = GestureType.NONE ∧
    (processResults ⟨[GestureType.PUNCH, GestureType.PUNCH, GestureType.PUNCH]⟩
        FrameInput.noHand).1.gestureBuffer ≠
      pushGesture [GestureType.PUNCH, GestureType.PUNCH, GestureType.PUNCH]
        GestureType.NONE ∧
    mostFrequent (pushGesture [GestureType.PUNCH, GestureType.PUNCH,
        GestureType.PUNCH] GestureType.NONE) = GestureType.PUNCH :=
  ⟨rfl, by decide, by decide⟩

/-- C1 (amended): on a no-hand frame the stabilizer is bypassed: the raw
label NONE is not appended to the buffer and no majority vote runs; the
buffer is left unchanged and the emitted label is NONE immediately. -/
theorem noHand_bypasses_stabilizer (st : TrackerState) :
    (processResults st FrameInput.noHand).1.gestureBuffer = st.gestureBuffer ∧
    (processResults st FrameInput.noHand).2.gesture = GestureType.NONE :=
  ⟨rfl, rfl⟩

/-- C4: when the stabilizer buffer splits, in first-occurrence order, as
pre ++ g :: post where every label of pre has a strictly smaller count
than g and no label of post has a larger count, the majority vote
returns g: on ties the label whose first occurrence comes earliest in
insertion order wins. -/
theorem stabilizer_tiebreak (buf : List GestureType) (g : GestureType)
    (pre post : List GestureType)
    (hsplit : distinctInOrder buf = pre ++ g :: post)
    (hpre : ∀ x ∈ pre, countOcc buf x < countOcc buf g)
    (hpost : ∀ x ∈ post, countOcc buf x ≤ countOcc buf g) :
    mostFrequent buf = g := by
  unfold mostFrequent
  rw [hsplit]
  cases pre with
  | nil =>
      rw [List.nil_append]
      exact foldl_pickMax_stable buf post g hpost
  | cons p pre =>
      rw [List.cons_append]
      exact foldl_pickMax_find buf pre p g post hpre hpost

/-- C4 (witness): feeding PUNCH, OPEN, PINCH, three distinct labels of
count one each, into a fresh stabilizer yields PUNCH. -/
theorem stabilizer_tiebreak_witness :
    stableAfter [GestureType.PUNCH, GestureType.OPEN, GestureType.PINCH] =
      GestureType.PUNCH :=
  stabilizer_tiebreak
    [GestureType.PUNCH, GestureType.OPEN, GestureType.PINCH] GestureType.PUNCH
    [] [GestureType.OPEN, GestureType.PINCH] (by decide) (by decide) (by decide)

/-- C5: each stabilizer update appends the new label, evicts the oldest
exactly when the buffer size exceeds 3, and returns a label of maximal
occurrence count among the buffer contents; feeding PUNCH, PUNCH, OPEN
yields PUNCH and feeding PUNCH, OPEN, OPEN yields OPEN. -/
theorem stabilizer_update_contract (buf : List GestureType) (g : GestureType) :
    pushGesture buf g =
      (if BUFFER_SIZE < (buf ++ [g]).length then (buf ++ [g]).tail
       else buf ++ [g]) ∧
    mostFrequent (pushGesture buf g) ∈ pushGesture buf g ∧
    (∀ x, countOcc (pushGesture buf g) x ≤
      countOcc (pushGesture buf g) (mostFrequent (pushGesture buf g))) ∧
    stableAfter [GestureType.PUNCH, GestureType.PUNCH, GestureType.OPEN] =
      GestureType.PUNCH ∧
    stableAfter [GestureType.PUNCH, GestureType.OPEN, GestureType.OPEN] =
      GestureType.OPEN :=
  ⟨rfl, mostFrequent_mem _ (pushGesture_ne_nil buf g),
   fun x => countOcc_le_mostFrequent _ x, by decide, by decide⟩

/-- C8: after any sequence of updates starting from the empty buffer,
the buffer is exactly the suffix of the most recent min(n, 3) raw inputs
in FIFO order, so the stable output never depends on older inputs. -/
theorem buffer_bound (gs : List GestureType) :
    feedAll [] gs = gs.drop (gs.length - BUFFER_SIZE) ∧
    (feedAll [] gs).length = min gs.length BUFFER_SIZE := by
  have h := feedAll_drop_aux gs [] (by simp [BUFFER_SIZE])
  rw [List.nil_append] at h
  refine ⟨h, ?_⟩
  rw [h, List.length_drop]
  simp only [BUFFER_SIZE]
  omega

/-- C10: a no-hand frame produces exactly the output pair NONE with
anchor (0.5, 0.5) and a completely unchanged tracker state: the no-hand
branch bypasses the buffer append and the majority vote. -/
theorem noHand_frame_effect (st : TrackerState) :
    processResults st FrameInput.noHand =
      (st, ⟨GestureType.NONE, (0.5, 0.5)⟩) := rfl

/-- C9: on a frame with a detected hand, the emitted anchor position is
the pair of x and y coordinates of landmark 9 of that frame, the palm
center, read fresh from the current landmark set. -/
theorem anchor_is_palm_center (st : TrackerState) (landmarks : List Landmark)
    (h : 9 < landmarks.length) :
    (processResults st (FrameInput.hand landmarks)).2.pos =
      ((landmarks.get ⟨9, h⟩).x, (landmarks.get ⟨9, h⟩).y) := by
  show ((landmarks.getD 9 default).x, (landmarks.getD 9 default).y) =
    ((landmarks.get ⟨9, h⟩).x, (landmarks.get ⟨9, h⟩).y)
  rw [List.getD_eq_getElem landmarks default h]
  rfl

/-- C9 (witness): processing the open-hand pose as a hand frame from an
empty buffer emits the coordinates of its landmark 9. -/
theorem anchor_is_palm_center_witness :
    (processResults ⟨[]⟩ (FrameInput.hand poseOpen)).2.pos =
      ((poseOpen.get ⟨9, by decide⟩).x, (poseOpen.get ⟨9, by decide⟩).y) :=
  anchor_is_palm_center ⟨[]⟩ poseOpen (by decide)

/-- C7: for an absent landmark set and for every landmark list shorter
than 21 points, the classifier returns NONE. -/
theorem classify_short_none (landmarks : Option (List Landmark))
    (h : landmarks = none ∨ ∃ l, landmarks = some l ∧ l.length < 21) :
    detectGestureOpt landmarks = GestureType.NONE := by
  rcases h with h | ⟨l, hl, hlen⟩
  · rw [h]
    rfl
  · rw [hl]
    show detectGesture l = GestureType.NONE
    unfold detectGesture
    rw [if_pos hlen]

/-- C7 (witness): the empty landmark list classifies as NONE. -/
theorem classify_short_none_witness :
    detectGestureOpt (some []) = GestureType.NONE :=
  classify_short_none (some []) (Or.inr ⟨[], rfl, by decide⟩)

/-- C6: whenever the planar thumb-tip to index-tip distance is below
0.045 and neither middle nor ring is extended, the classifier returns
PINCH, regardless of the pinky and of any other condition, since PINCH
is the first branch checked. -/
theorem classify_pinch (landmarks : List Landmark)
    (h21 : 21 ≤ landmarks.length)
    (hdist : pinchDistLt landmarks = true)
    (hmid : middleOpen landmarks = false)
    (hring : ringOpen landmarks = false) :
    detectGesture landmarks = GestureType.PINCH := by
  unfold detectGesture
  rw [if_neg (by omega)]
  rw [if_pos (by simp [pinchCond, hdist, hmid, hring])]

/-- C6 (witness): a pose with thumb tip on the index tip and every
finger curled onto the palm, which also meets the PUNCH distances,
classifies as PINCH. -/
theorem classify_pinch_witness :
    detectGesture posePinch = GestureType.PINCH ∧
    allClosed posePinch = true ∧
    pinkyOpen posePinch = false :=
  ⟨classify_pinch posePinch (by decide) distLt_curl_curl isExtended_curl
     isExtended_curl,
   allClosed_poseFist, isExtended_curl⟩

/-- C2 (counterexample): the pose poseOpenNear has all four of index,
middle, ring, pinky extended, yet the classifier returns PUNCH, not
OPEN, because every fingertip also lies within 0.12 of the palm center
and the PUNCH branch is checked before the OPEN branch. -/
theorem classify_open_cex :
    21 ≤ poseOpenNear.length ∧
    indexOpen poseOpenNear = true ∧
    middleOpen poseOpenNear = true ∧
    ringOpen poseOpenNear = true ∧
    pinkyOpen poseOpenNear = true ∧
    detectGesture poseOpenNear = GestureType.PUNCH := by
  refine ⟨by decide, isExtended_near, isExtended_near, isExtended_near,
    isExtended_near, ?_⟩
  unfold detectGesture
  rw [if_neg (by decide),
    if_neg (by rw [pinchCond_poseOpenNear]; decide),
    if_neg (by rw [threeFingersCond_poseOpenNear]; decide),
    if_neg (by rw [twoFingersCond_poseOpenNear]; decide),
    if_pos allClosed_poseOpenNear]

/-- C2 (amended): if all four of index, middle, ring, pinky are extended
and the PUNCH condition fails (some fingertip is at planar distance at
least 0.12 from the palm center), the classifier returns OPEN. -/
theorem classify_open_amended (landmarks : List Landmark)
    (h21 : 21 ≤ landmarks.length)
    (hidx : indexOpen landmarks = true)
    (hmid : middleOpen landmarks = true)
    (hring : ringOpen landmarks = true)
    (hpinky : pinkyOpen landmarks = true)
    (hnofist : allClosed landmarks = false) :
    detectGesture landmarks = GestureType.OPEN := by
  unfold detectGesture
  rw [if_neg (by omega)]
  rw [if_neg (by simp [pinchCond, hmid])]
  rw [if_neg (by simp [threeFingersCond, hpinky])]
  rw [if_neg (by simp [twoFingersCond, hring])]
  rw [if_neg (by simp [hnofist])]
  rw [if_pos (by simp [extendedCount, hidx, hmid, hring, hpinky])]

/-- C2 (witness): a plain open hand, with fingertips far from the palm
center, classifies as OPEN. -/
theorem classify_open_amended_witness :
    detectGesture poseOpen = GestureType.OPEN :=
  classify_open_amended poseOpen (by decide) isExtended_far isExtended_far
    isExtended_far isExtended_far allClosed_poseOpen

/-- C3 (counterexample): the pose poseThreeNear has all four
fingertip-to-palm-center distances below 0.12 and fails the PINCH
condition, yet the classifier returns THREE_FINGERS, not PUNCH, because
the finger-count branches are checked before the PUNCH branch. -/
theorem classify_punch_cex :
    allClosed poseThreeNear = true ∧
    pinchCond poseThreeNear = false ∧
    detectGesture poseThreeNear = GestureType.THREE_FINGERS := by
  refine ⟨allClosed_poseThreeNear, pinchCond_poseThreeNear, ?_⟩
  unfold detectGesture
  rw [if_neg (by decide),
    if_neg (by rw [pinchCond_poseThreeNear]; decide),
    if_pos threeFingersCond_poseThreeNear]

/-- C3 (amended): if all four fingertip-to-palm-center distances are
below 0.12 and none of the PINCH, THREE_FINGERS and TWO_FINGERS
conditions holds, the classifier returns PUNCH. -/
theorem classify_punch_amended (landmarks : List Landmark)
    (h21 : 21 ≤ landmarks.length)
    (hfist : allClosed landmarks = true)
    (hpinch : pinchCond landmarks = false)
    (hthree : threeFingersCond landmarks = false)
    (htwo : twoFingersCond landmarks = false) :
    detectGesture landmarks = GestureType.PUNCH := by
  unfold detectGesture
  rw [if_neg (by omega)]
  rw [if_neg (by simp [hpinch])]
  rw [if_neg (by simp [hthree])]
  rw [if_neg (by simp [htwo])]
  rw [if_pos hfist]

/-- C3 (witness): a plain fist, with every fingertip near the palm
center, no finger extended and the thumb away from the index tip,
classifies as PUNCH. -/
theorem classify_punch_amended_witness :
    detectGesture poseFist = GestureType.PUNCH :=
  classify_punch_amended poseFist (by decide) allClosed_poseFist
    pinchCond_poseFist threeFingersCond_poseFist twoFingersCond_poseFist

end GesturePro
